import Mathlib

/-!
Shallow embedding of the `cantara-slides` crate (`src/slides.rs`, `src/lib.rs`):
a generic presentation-slide data model with construction helpers that
normalize whitespace, read-only structural predicates, and a schema-tagged
serialization boundary.

Rust `String` is embedded as Lean `String`; `Vec<A>` as `List A`;
`Option<A>` as `Option A`.  Generic parameters `T` (linked entity) and `M`
(media) stay type parameters.
-/

/-- Trimming of leading whitespace from a character list
(the front half of Rust `str::trim`). -/
def ltrimChars (cs : List Char) : List Char :=
  cs.dropWhile Char.isWhitespace

/-- Trimming of trailing whitespace from a character list
(the back half of Rust `str::trim`). -/
def rtrimChars (cs : List Char) : List Char :=
  (cs.reverse.dropWhile Char.isWhitespace).reverse

/-- Shallow embedding of Rust `str::trim`: remove leading and trailing
whitespace characters. -/
def rustTrim (s : String) : String :=
  ⟨rtrimChars (ltrimChars s.data)⟩

/-- Shallow embedding of Rust `str::is_empty`. -/
def rustIsEmpty (s : String) : Bool :=
  s.data.isEmpty

/-- `SingleLanguageMainContentSlide` from `src/slides.rs`. -/
structure SingleLanguageMainContentSlide where
  main_text : String
  spoiler_text : Option String
  meta_text : Option String
deriving DecidableEq

/-- `MultiLanguageMainContentSlide` from `src/slides.rs`. -/
structure MultiLanguageMainContentSlide where
  main_text_list : List String
  spoiler_text_vector : List String
  meta_text : Option String
deriving DecidableEq

/-- `EmptySlide` from `src/slides.rs`. -/
structure EmptySlide where
  black_background : Bool
deriving DecidableEq

/-- `TitleSlide` from `src/slides.rs`. -/
structure TitleSlide where
  title_text : String
  meta_text : Option String
deriving DecidableEq

/-- `SimplePictureSlide` from `src/slides.rs`. -/
structure SimplePictureSlide where
  picture_path : String
deriving DecidableEq

/-- `SlideContent` from `src/slides.rs`. -/
inductive SlideContent where
  | SingleLanguageMainContent (s : SingleLanguageMainContentSlide)
  | Title (s : TitleSlide)
  | MultiLanguageMainContent (s : MultiLanguageMainContentSlide)
  | SimplePicture (s : SimplePictureSlide)
  | Empty (s : EmptySlide)
deriving DecidableEq

/-- `Slide<M>` from `src/slides.rs`. -/
structure Slide (M : Type) where
  slide_content : SlideContent
  linked_file : Option M

/-- `LinkedEntity<T, M>` from `src/slides.rs`. -/
inductive LinkedEntity (T M : Type) where
  | Source (t : T)
  | Title (s : String)
  | Media (m : M)

/-- `PresentationChapter<T, M>` from `src/slides.rs`: a deck of slides plus
the entity it is derived from. -/
structure PresentationChapter (T M : Type) where
  slides : List (Slide M)
  linked_entity : LinkedEntity T M

/-- `PresentationChapter::new` from `src/slides.rs`. -/
def PresentationChapter.new {T M : Type} (slides : List (Slide M))
    (linked_entity : LinkedEntity T M) : PresentationChapter T M :=
  { slides := slides, linked_entity := linked_entity }

/-- `Slide::new_empty_slide` from `src/slides.rs`. -/
def Slide.new_empty_slide {M : Type} (black_background : Bool) : Slide M :=
  { slide_content := SlideContent.Empty { black_background := black_background },
    linked_file := none }

/-- `SingleLanguageMainContentSlide::new` from `src/slides.rs`: optional
fields are dropped when they are empty after trimming. -/
def SingleLanguageMainContentSlide.new (main_text : String)
    (spoiler_text meta_text : Option String) : SingleLanguageMainContentSlide :=
  let filter := fun (s : Option String) =>
    s.filter (fun v => !(rustIsEmpty (rustTrim v)))
  { main_text := main_text,
    spoiler_text := filter spoiler_text,
    meta_text := filter meta_text }

/-- `Slide::new_content_slide` from `src/slides.rs`. -/
def Slide.new_content_slide {M : Type} (main_text : String)
    (spoiler_text meta_text : Option String) : Slide M :=
  { slide_content := SlideContent.SingleLanguageMainContent
      (SingleLanguageMainContentSlide.new
        (rustTrim main_text)
        (spoiler_text.map rustTrim)
        (meta_text.map rustTrim)),
    linked_file := none }

/-- `Slide::new_title_slide` from `src/slides.rs`. -/
def Slide.new_title_slide {M : Type} (title_text : String)
    (meta_text : Option String) : Slide M :=
  { slide_content := SlideContent.Title
      { title_text := rustTrim title_text,
        meta_text := meta_text.map rustTrim },
    linked_file := none }

/-- `Slide::with_media` from `src/slides.rs`. -/
def Slide.with_media {M : Type} (self : Slide M) (media : M) : Slide M :=
  { self with linked_file := some media }

/-- `Slide::has_spoiler` from `src/slides.rs`. -/
def Slide.has_spoiler {M : Type} (self : Slide M) : Bool :=
  match self.slide_content with
  | SlideContent.SingleLanguageMainContent s => s.spoiler_text.isSome
  | SlideContent.MultiLanguageMainContent s => !s.spoiler_text_vector.isEmpty
  | _ => false

/-- `Slide::has_meta_text` from `src/slides.rs`. -/
def Slide.has_meta_text {M : Type} (self : Slide M) : Bool :=
  match self.slide_content with
  | SlideContent.SingleLanguageMainContent s => s.meta_text.isSome
  | SlideContent.Title s => s.meta_text.isSome
  | SlideContent.MultiLanguageMainContent s => s.meta_text.isSome
  | _ => false

/-! ### Facts about trimming -/

theorem ltrimChars_of_rtrim_ltrim (l : List Char) :
    ltrimChars (rtrimChars (ltrimChars l)) = rtrimChars (ltrimChars l) := by
  cases h : rtrimChars (ltrimChars l) with
  | nil => rfl
  | cons a t =>
    have h' : List.rdropWhile Char.isWhitespace (ltrimChars l) = a :: t := h
    have hpre : List.rdropWhile Char.isWhitespace (ltrimChars l) <+: ltrimChars l :=
      List.rdropWhile_prefix _ _
    rw [h'] at hpre
    obtain ⟨rest, hrest⟩ := hpre
    have hx : List.dropWhile Char.isWhitespace l = a :: (t ++ rest) := by
      show ltrimChars l = a :: (t ++ rest)
      rw [← hrest]; simp
    have h0 := List.head?_dropWhile_not Char.isWhitespace l
    rw [hx] at h0
    simp only [List.head?_cons] at h0
    show List.dropWhile Char.isWhitespace (a :: t) = a :: t
    rw [List.dropWhile_cons, if_neg (by simp [h0])]

theorem rustTrim_idem (s : String) : rustTrim (rustTrim s) = rustTrim s := by
  show String.mk (rtrimChars (ltrimChars (rtrimChars (ltrimChars s.data))))
    = String.mk (rtrimChars (ltrimChars s.data))
  rw [ltrimChars_of_rtrim_ltrim]
  show String.mk (List.rdropWhile Char.isWhitespace
      (List.rdropWhile Char.isWhitespace (ltrimChars s.data)))
    = String.mk (List.rdropWhile Char.isWhitespace (ltrimChars s.data))
  rw [List.rdropWhile_idempotent]

/-- The filter used by `SingleLanguageMainContentSlide::new`, applied after
the trimming done by `new_content_slide`, is the same as the spec's
"trim, then absent when the trimmed result is empty" normalization. -/
theorem filter_of_map_trim (o : Option String) :
    (o.map rustTrim).filter (fun v => !(rustIsEmpty (rustTrim v)))
      = o.bind (fun s =>
          if rustIsEmpty (rustTrim s) then none else some (rustTrim s)) := by
  cases o with
  | none => rfl
  | some s =>
    show Option.filter _ (some (rustTrim s)) = _
    cases h : rustIsEmpty (rustTrim s) <;>
      simp [Option.filter, rustTrim_idem, h]

/-! ### Claims about the constructors and predicates -/

/-- C1: `new_content_slide` stores `main_text` trimmed of leading and
trailing whitespace, and stores each optional field trimmed, replaced by
absent whenever the trimmed result is empty; in particular
`new_content_slide("Hello", Some("   "), None)` stores `spoiler_text` as
absent. -/
theorem new_content_slide_normalizes :
    (∀ (M : Type) (main : String) (sp mt : Option String),
      (Slide.new_content_slide (M := M) main sp mt).slide_content
        = SlideContent.SingleLanguageMainContent
            { main_text := rustTrim main,
              spoiler_text := sp.bind (fun s =>
                if rustIsEmpty (rustTrim s) then none else some (rustTrim s)),
              meta_text := mt.bind (fun s =>
                if rustIsEmpty (rustTrim s) then none else some (rustTrim s)) })
    ∧ (Slide.new_content_slide (M := Unit) "Hello" (some ("   ")) none).slide_content
        = SlideContent.SingleLanguageMainContent
            { main_text := "Hello", spoiler_text := none, meta_text := none } := by
  constructor
  · intro M main sp mt
    show SlideContent.SingleLanguageMainContent _ = SlideContent.SingleLanguageMainContent _
    rw [SingleLanguageMainContentSlide.new]
    simp only [SlideContent.SingleLanguageMainContent.injEq,
      SingleLanguageMainContentSlide.mk.injEq]
    exact ⟨trivial, filter_of_map_trim sp, filter_of_map_trim mt⟩
  · decide

/-- C2 (counterexample): the claim says `new_title_slide` replaces a
whitespace-only `meta_text` by absent; the code only trims it, so
`new_title_slide("T", Some("   "))` stores `meta_text = Some("")`, not
absent. -/
theorem new_title_slide_meta_counterexample :
    ((Slide.new_title_slide (M := Unit) "T" (some ("   "))).slide_content
        ≠ SlideContent.Title { title_text := "T", meta_text := none })
    ∧ (Slide.new_title_slide (M := Unit) "T" (some ("   "))).slide_content
        = SlideContent.Title { title_text := "T", meta_text := some ("") } := by
  refine ⟨?_, ?_⟩ <;> decide

/-- C2 (amended): `new_title_slide` stores `title_text` trimmed of leading
and trailing whitespace, and stores `meta_text` merely trimmed when present
(no emptiness normalization): a whitespace-only `meta_text` is stored as the
present empty string. -/
theorem new_title_slide_spec (M : Type) (title : String) (mt : Option String) :
    (Slide.new_title_slide (M := M) title mt).slide_content
      = SlideContent.Title
          { title_text := rustTrim title, meta_text := mt.map rustTrim } := rfl

/-- C3: `has_spoiler` is true iff the content variant is
`SingleLanguageMainContent` with a present `spoiler_text` or
`MultiLanguageMainContent` with a non-empty `spoiler_text_vector`, and
false for every other variant. -/
theorem has_spoiler_iff (M : Type) (sl : Slide M) :
    sl.has_spoiler = true ↔
      ((∃ s, sl.slide_content = SlideContent.SingleLanguageMainContent s
          ∧ s.spoiler_text ≠ none)
       ∨ (∃ s, sl.slide_content = SlideContent.MultiLanguageMainContent s
          ∧ s.spoiler_text_vector ≠ [])) := by
  obtain ⟨c, lf⟩ := sl
  cases c <;>
    simp [Slide.has_spoiler, Option.isSome_iff_ne_none, List.isEmpty_iff]

/-- C4: `has_meta_text` is true iff the content variant is
`SingleLanguageMainContent`, `Title` or `MultiLanguageMainContent` and its
`meta_text` field is present; false otherwise. -/
theorem has_meta_text_iff (M : Type) (sl : Slide M) :
    sl.has_meta_text = true ↔
      ((∃ s, sl.slide_content = SlideContent.SingleLanguageMainContent s
          ∧ s.meta_text ≠ none)
       ∨ (∃ s, sl.slide_content = SlideContent.Title s ∧ s.meta_text ≠ none)
       ∨ (∃ s, sl.slide_content = SlideContent.MultiLanguageMainContent s
          ∧ s.meta_text ≠ none)) := by
  obtain ⟨c, lf⟩ := sl
  cases c <;> simp [Slide.has_meta_text, Option.isSome_iff_ne_none]

/-- C6: `with_media` sets `linked_file` to exactly the attached media,
overwriting any previous attachment, and leaves `slide_content`
unchanged. -/
theorem with_media_spec (M : Type) (sl : Slide M) (m : M) :
    (sl.with_media m).linked_file = some m
      ∧ (sl.with_media m).slide_content = sl.slide_content :=
  ⟨rfl, rfl⟩

/-- C7: `PresentationChapter::new` stores the given slide sequence
unchanged and the given provenance value; it is total, so construction
never fails (an empty slide sequence is permitted). -/
theorem presentation_chapter_new_spec (T M : Type) (slides : List (Slide M))
    (le : LinkedEntity T M) :
    (PresentationChapter.new slides le).slides = slides
      ∧ (PresentationChapter.new slides le).linked_entity = le :=
  ⟨rfl, rfl⟩

/-- C8: each of `new_empty_slide`, `new_content_slide` and `new_title_slide`
returns a slide with no attached media; `new_empty_slide(b)` produces an
`Empty` content slide with `black_background = b`. -/
theorem constructors_attach_no_media :
    (∀ (M : Type) (b : Bool),
      (Slide.new_empty_slide (M := M) b).linked_file = none
        ∧ (Slide.new_empty_slide (M := M) b).slide_content
            = SlideContent.Empty { black_background := b })
    ∧ (∀ (M : Type) (main : String) (sp mt : Option String),
        (Slide.new_content_slide (M := M) main sp mt).linked_file = none)
    ∧ (∀ (M : Type) (t : String) (mt : Option String),
        (Slide.new_title_slide (M := M) t mt).linked_file = none) :=
  ⟨fun _ _ => ⟨rfl, rfl⟩, fun _ _ _ _ => rfl, fun _ _ _ => rfl⟩

/-- C9: on a `MultiLanguageMainContent` slide, `has_spoiler` looks only at
whether `spoiler_text_vector` is empty; a vector holding only empty or
whitespace-only strings still yields true. -/
theorem multilanguage_spoiler_ignores_contents :
    (∀ (M : Type) (mtl sv : List String) (mt : Option String) (lf : Option M),
      (Slide.mk (SlideContent.MultiLanguageMainContent
          { main_text_list := mtl, spoiler_text_vector := sv,
            meta_text := mt }) lf).has_spoiler
        = !sv.isEmpty)
    ∧ (Slide.mk (M := Unit)
        (SlideContent.MultiLanguageMainContent
          { main_text_list := ["x"], spoiler_text_vector := ["", "   "],
            meta_text := none }) none).has_spoiler = true :=
  ⟨fun _ _ _ _ _ => rfl, rfl⟩

/-- C10: when `main_text` is empty or whitespace-only, `new_content_slide`
still succeeds and stores `main_text` as the empty string: the required
field is never normalized to absent. -/
theorem empty_main_text_representable (M : Type) (main : String)
    (sp mt : Option String) (h : rustIsEmpty (rustTrim main) = true) :
    ∃ s, (Slide.new_content_slide (M := M) main sp mt).slide_content
        = SlideContent.SingleLanguageMainContent s ∧ s.main_text = "" := by
  refine ⟨_, rfl, ?_⟩
  show rustTrim main = ""
  have hd : (rustTrim main).data = [] := by
    have := h
    rw [rustIsEmpty, List.isEmpty_iff] at this
    exact this
  cases hmk : rustTrim main with
  | mk d =>
    rw [hmk] at hd
    simp only at hd
    rw [hd]

/-- Witness for C10 at the whitespace-only input `" \t "`. -/
theorem empty_main_text_representable_witness :
    rustIsEmpty (rustTrim (" \t ")) = true
      ∧ ∃ s, (Slide.new_content_slide (M := Unit) " \t " (some ("x")) none).slide_content
          = SlideContent.SingleLanguageMainContent s ∧ s.main_text = "" :=
  ⟨by decide, empty_main_text_representable Unit (" \t ") (some ("x")) none (by decide)⟩

/-! ### Serialization boundary

The crate derives its (de)serialization impls (`serde`); that derived code
is not part of this repository, so the boundary is modelled from the spec:
a self-describing, schema-tagged structured text format (JSON-compatible),
with each variant serialized under an explicit tag and deserialization
rejecting payloads whose tag or field set does not match the schema. -/

/-- Modelled from the spec: the JSON-compatible structured text values the
serialization boundary produces; the concrete serde/serde_json encoder is
not in `src/`. -/
inductive Json where
  | null
  | bool (b : Bool)
  | str (s : String)
  | arr (xs : List Json)
  | obj (fields : List (String × Json))

/-- Modelled from the spec: serialization of an optional field (absent is
encoded as `null`, present as the payload's own encoding). -/
def serOption {A : Type} (serA : A → Json) : Option A → Json
  | none => Json.null
  | some a => serA a

/-- Modelled from the spec: deserialization of an optional field. -/
def desOption {A : Type} (desA : Json → Option A) : Json → Option (Option A)
  | Json.null => some none
  | j => (desA j).map some

/-- Modelled from the spec: deserialization of a string field, rejecting
any non-string payload. -/
def desString : Json → Option String
  | Json.str s => some s
  | _ => none

/-- Modelled from the spec: elementwise deserialization of a serialized
sequence; the whole sequence is rejected when any element is. -/
def desList {A : Type} (desA : Json → Option A) : List Json → Option (List A)
  | [] => some []
  | j :: js => do
      let a ← desA j
      let rest ← desList desA js
      some (a :: rest)

/-- Modelled from the spec: deserialization of a boolean field. -/
def desBool : Json → Option Bool
  | Json.bool b => some b
  | _ => none

/-- Modelled from the spec: serialization of `SingleLanguageMainContentSlide`
with its field set. -/
def serSingleLanguage (s : SingleLanguageMainContentSlide) : Json :=
  Json.obj [("main_text", Json.str s.main_text),
            ("spoiler_text", serOption Json.str s.spoiler_text),
            ("meta_text", serOption Json.str s.meta_text)]

/-- Modelled from the spec: deserialization of
`SingleLanguageMainContentSlide`, rejecting a mismatched field set. -/
def desSingleLanguage : Json → Option SingleLanguageMainContentSlide
  | Json.obj [("main_text", jm), ("spoiler_text", js), ("meta_text", jt)] => do
      let m ← desString jm
      let sp ← desOption desString js
      let mt ← desOption desString jt
      some { main_text := m, spoiler_text := sp, meta_text := mt }
  | _ => none

/-- Modelled from the spec: serialization of
`MultiLanguageMainContentSlide`. -/
def serMultiLanguage (s : MultiLanguageMainContentSlide) : Json :=
  Json.obj [("main_text_list", Json.arr (s.main_text_list.map Json.str)),
            ("spoiler_text_vector", Json.arr (s.spoiler_text_vector.map Json.str)),
            ("meta_text", serOption Json.str s.meta_text)]

/-- Modelled from the spec: deserialization of
`MultiLanguageMainContentSlide`. -/
def desMultiLanguage : Json → Option MultiLanguageMainContentSlide
  | Json.obj [("main_text_list", Json.arr jm),
              ("spoiler_text_vector", Json.arr js),
              ("meta_text", jt)] => do
      let m ← desList desString jm
      let sv ← desList desString js
      let mt ← desOption desString jt
      some { main_text_list := m, spoiler_text_vector := sv, meta_text := mt }
  | _ => none

/-- Modelled from the spec: serialization of `EmptySlide`. -/
def serEmptySlide (s : EmptySlide) : Json :=
  Json.obj [("black_background", Json.bool s.black_background)]

/-- Modelled from the spec: deserialization of `EmptySlide`. -/
def desEmptySlide : Json → Option EmptySlide
  | Json.obj [("black_background", jb)] => do
      let b ← desBool jb
      some { black_background := b }
  | _ => none

/-- Modelled from the spec: serialization of `TitleSlide`. -/
def serTitleSlide (s : TitleSlide) : Json :=
  Json.obj [("title_text", Json.str s.title_text),
            ("meta_text", serOption Json.str s.meta_text)]

/-- Modelled from the spec: deserialization of `TitleSlide`. -/
def desTitleSlide : Json → Option TitleSlide
  | Json.obj [("title_text", jt), ("meta_text", jm)] => do
      let t ← desString jt
      let mt ← desOption desString jm
      some { title_text := t, meta_text := mt }
  | _ => none

/-- Modelled from the spec: serialization of `SimplePictureSlide`. -/
def serSimplePicture (s : SimplePictureSlide) : Json :=
  Json.obj [("picture_path", Json.str s.picture_path)]

/-- Modelled from the spec: deserialization of `SimplePictureSlide`. -/
def desSimplePicture : Json → Option SimplePictureSlide
  | Json.obj [("picture_path", jp)] => do
      let p ← desString jp
      some { picture_path := p }
  | _ => none

/-- Modelled from the spec: externally tagged serialization of the
`SlideContent` variants. -/
def serSlideContent : SlideContent → Json
  | SlideContent.SingleLanguageMainContent s =>
      Json.obj [("SingleLanguageMainContent", serSingleLanguage s)]
  | SlideContent.Title s => Json.obj [("Title", serTitleSlide s)]
  | SlideContent.MultiLanguageMainContent s =>
      Json.obj [("MultiLanguageMainContent", serMultiLanguage s)]
  | SlideContent.SimplePicture s => Json.obj [("SimplePicture", serSimplePicture s)]
  | SlideContent.Empty s => Json.obj [("Empty", serEmptySlide s)]

/-- Modelled from the spec: deserialization of `SlideContent`, rejecting an
unknown variant tag. -/
def desSlideContent : Json → Option SlideContent
  | Json.obj [("SingleLanguageMainContent", j)] =>
      (desSingleLanguage j).map SlideContent.SingleLanguageMainContent
  | Json.obj [("Title", j)] => (desTitleSlide j).map SlideContent.Title
  | Json.obj [("MultiLanguageMainContent", j)] =>
      (desMultiLanguage j).map SlideContent.MultiLanguageMainContent
  | Json.obj [("SimplePicture", j)] => (desSimplePicture j).map SlideContent.SimplePicture
  | Json.obj [("Empty", j)] => (desEmptySlide j).map SlideContent.Empty
  | _ => none

/-- Modelled from the spec: serialization of `Slide<M>`, parameterized by
the host-supplied encoding of the media type `M`. -/
def serSlide {M : Type} (serM : M → Json) (s : Slide M) : Json :=
  Json.obj [("slide_content", serSlideContent s.slide_content),
            ("linked_file", serOption serM s.linked_file)]

/-- Modelled from the spec: deserialization of `Slide<M>`. -/
def desSlide {M : Type} (desM : Json → Option M) : Json → Option (Slide M)
  | Json.obj [("slide_content", jc), ("linked_file", jf)] => do
      let c ← desSlideContent jc
      let lf ← desOption desM jf
      some { slide_content := c, linked_file := lf }
  | _ => none

/-- Modelled from the spec: externally tagged serialization of
`LinkedEntity<T, M>`. -/
def serLinkedEntity {T M : Type} (serT : T → Json) (serM : M → Json) :
    LinkedEntity T M → Json
  | LinkedEntity.Source t => Json.obj [("Source", serT t)]
  | LinkedEntity.Title s => Json.obj [("Title", Json.str s)]
  | LinkedEntity.Media m => Json.obj [("Media", serM m)]

/-- Modelled from the spec: deserialization of `LinkedEntity<T, M>`. -/
def desLinkedEntity {T M : Type} (desT : Json → Option T)
    (desM : Json → Option M) : Json → Option (LinkedEntity T M)
  | Json.obj [("Source", j)] => (desT j).map LinkedEntity.Source
  | Json.obj [("Title", j)] => (desString j).map LinkedEntity.Title
  | Json.obj [("Media", j)] => (desM j).map LinkedEntity.Media
  | _ => none

/-- Modelled from the spec: serialization of `PresentationChapter<T, M>`. -/
def serPresentationChapter {T M : Type} (serT : T → Json) (serM : M → Json)
    (v : PresentationChapter T M) : Json :=
  Json.obj [("slides", Json.arr (v.slides.map (serSlide serM))),
            ("linked_entity", serLinkedEntity serT serM v.linked_entity)]

/-- Modelled from the spec: deserialization of
`PresentationChapter<T, M>`. -/
def desPresentationChapter {T M : Type} (desT : Json → Option T)
    (desM : Json → Option M) : Json → Option (PresentationChapter T M)
  | Json.obj [("slides", Json.arr js), ("linked_entity", je)] => do
      let sl ← desList (desSlide desM) js
      let le ← desLinkedEntity desT desM je
      some { slides := sl, linked_entity := le }
  | _ => none

/-! ### Round-trip lemmas for the serialization boundary -/

theorem desOption_roundtrip {A : Type} (serA : A → Json) (desA : Json → Option A)
    (hA : ∀ a, desA (serA a) = some a) (hnull : ∀ a, serA a ≠ Json.null)
    (o : Option A) : desOption desA (serOption serA o) = some o := by
  cases o with
  | none => rfl
  | some a =>
    show desOption desA (serA a) = some (some a)
    have h1 : desOption desA (serA a) = (desA (serA a)).map some := by
      cases hj : serA a with
      | null => exact absurd hj (hnull a)
      | bool b => rfl
      | str s => rfl
      | arr xs => rfl
      | obj fs => rfl
    rw [h1, hA a]
    rfl

theorem desOption_str_roundtrip (o : Option String) :
    desOption desString (serOption Json.str o) = some o :=
  desOption_roundtrip Json.str desString (fun _ => rfl)
    (fun _ h => Json.noConfusion h) o

theorem desList_map_roundtrip {A : Type} (f : A → Json) (g : Json → Option A)
    (h : ∀ a, g (f a) = some a) (l : List A) :
    desList g (l.map f) = some l := by
  induction l with
  | nil => rfl
  | cons a t ih => simp [desList, h, ih]

theorem desSingleLanguage_roundtrip (s : SingleLanguageMainContentSlide) :
    desSingleLanguage (serSingleLanguage s) = some s := by
  obtain ⟨m, sp, mt⟩ := s
  simp [serSingleLanguage, desSingleLanguage, desString, desOption_str_roundtrip]

theorem desMultiLanguage_roundtrip (s : MultiLanguageMainContentSlide) :
    desMultiLanguage (serMultiLanguage s) = some s := by
  obtain ⟨m, sv, mt⟩ := s
  simp [serMultiLanguage, desMultiLanguage, desOption_str_roundtrip,
    desList_map_roundtrip Json.str desString (fun _ => rfl)]

theorem desEmptySlide_roundtrip (s : EmptySlide) :
    desEmptySlide (serEmptySlide s) = some s := by
  obtain ⟨b⟩ := s
  simp [serEmptySlide, desEmptySlide, desBool]

theorem desTitleSlide_roundtrip (s : TitleSlide) :
    desTitleSlide (serTitleSlide s) = some s := by
  obtain ⟨t, mt⟩ := s
  simp [serTitleSlide, desTitleSlide, desString, desOption_str_roundtrip]

theorem desSimplePicture_roundtrip (s : SimplePictureSlide) :
    desSimplePicture (serSimplePicture s) = some s := by
  obtain ⟨p⟩ := s
  simp [serSimplePicture, desSimplePicture, desString]

theorem desSlideContent_roundtrip (c : SlideContent) :
    desSlideContent (serSlideContent c) = some c := by
  cases c <;>
    simp [serSlideContent, desSlideContent, desSingleLanguage_roundtrip,
      desTitleSlide_roundtrip, desMultiLanguage_roundtrip,
      desSimplePicture_roundtrip, desEmptySlide_roundtrip]

theorem desSlide_roundtrip {M : Type} (serM : M → Json) (desM : Json → Option M)
    (hM : ∀ m, desM (serM m) = some m) (hMnull : ∀ m, serM m ≠ Json.null)
    (s : Slide M) : desSlide desM (serSlide serM s) = some s := by
  obtain ⟨c, lf⟩ := s
  simp [serSlide, desSlide, desSlideContent_roundtrip,
    desOption_roundtrip serM desM hM hMnull]

theorem desLinkedEntity_roundtrip {T M : Type}
    (serT : T → Json) (desT : Json → Option T)
    (serM : M → Json) (desM : Json → Option M)
    (hT : ∀ t, desT (serT t) = some t) (hM : ∀ m, desM (serM m) = some m)
    (le : LinkedEntity T M) :
    desLinkedEntity desT desM (serLinkedEntity serT serM le) = some le := by
  cases le <;> simp [serLinkedEntity, desLinkedEntity, desString, hT, hM]

/-- C5: for every `PresentationChapter<T, M>` whose type parameters carry a
faithful serialization (deserialization inverts serialization, and media
values never serialize to the `null` used for an absent `linked_file`),
deserializing the serialization of the chapter yields the chapter itself. -/
theorem presentation_chapter_roundtrip (T M : Type)
    (serT : T → Json) (desT : Json → Option T)
    (serM : M → Json) (desM : Json → Option M)
    (hT : ∀ t, desT (serT t) = some t)
    (hM : ∀ m, desM (serM m) = some m)
    (hMnull : ∀ m, serM m ≠ Json.null)
    (v : PresentationChapter T M) :
    desPresentationChapter desT desM (serPresentationChapter serT serM v)
      = some v := by
  obtain ⟨slides, le⟩ := v
  simp [serPresentationChapter, desPresentationChapter,
    desList_map_roundtrip (serSlide serM) (desSlide desM)
      (desSlide_roundtrip serM desM hM hMnull),
    desLinkedEntity_roundtrip serT desT serM desM hT hM]

/-- Witness for C5: the spec's concrete scenario, a chapter holding one
black `Empty` slide with attached media and a `Title` provenance, with both
type parameters instantiated at `String`, round-trips to itself. -/
theorem presentation_chapter_roundtrip_witness :
    desPresentationChapter desString desString
        (serPresentationChapter Json.str Json.str
          (PresentationChapter.new
            [(Slide.new_empty_slide true).with_media ("background.png")]
            (LinkedEntity.Title ("Simple Show"))))
      = some (PresentationChapter.new
          [(Slide.new_empty_slide true).with_media ("background.png")]
          (LinkedEntity.Title ("Simple Show"))) :=
  presentation_chapter_roundtrip String String Json.str desString Json.str
    desString (fun _ => rfl) (fun _ => rfl) (fun _ h => Json.noConfusion h) _
